import Mathlib

set_option maxHeartbeats 1000000
set_option maxRecDepth 4096

/-!
A shallow embedding of the COPT (COTP class-0) frame codec of the `copt`
crate: the connect-parameter TLV codec (`src/copt/src/parameter.rs`), the
connect body codec (`src/copt/src/packet.rs`) and the generic frame
decoder/encoder pair (`src/copt/src/decoder.rs`, `src/copt/src/encoder.rs`).

Bytes are modelled as `Nat` values below 256 and buffers as `List Nat`, the
head of the list being the front of the `BytesMut` buffer.  `u8` arithmetic
that wraps in Rust carries an explicit `% 256`.  Fallible Rust paths
(`Result`) become `Except String`, with the error strings mirroring the
`format!` messages of the source; a Rust panic (`get_u8` on an empty slice)
is modelled as an `Except.error` as well.  A Rust function that consumes
bytes from its `&mut BytesMut` argument is modelled as a function that
returns the remaining buffer next to its result; on every "not enough data"
path the input buffer is returned unchanged, exactly as the Rust code leaves
the buffer untouched there.  The injected `tokio_util` inner codec of the
generic frame codec is modelled as an explicit function argument.
-/

deriving instance DecidableEq for Except

namespace Copt

/-- Model of `TpduSize` in `parameter.rs`: the seven RFC 905 13.3.4 size
codes handled by `num_enum`. -/
inductive TpduSize where
  | L8192
  | L4096
  | L2048
  | L1024
  | L512
  | L256
  | L128
deriving DecidableEq, Fintype

/-- Model of the `IntoPrimitive` discriminants of `TpduSize`. -/
def TpduSize.toByte : TpduSize → Nat
  | .L8192 => 0x0d
  | .L4096 => 0x0c
  | .L2048 => 0x0b
  | .L1024 => 0x0a
  | .L512 => 0x09
  | .L256 => 0x08
  | .L128 => 0x07

/-- Model of the `TryFromPrimitive` conversion of `TpduSize`: the
discriminant chain generated by `num_enum`, `none` for any other byte. -/
def TpduSize.fromByte (b : Nat) : Option TpduSize :=
  if b = 0x0d then some .L8192
  else if b = 0x0c then some .L4096
  else if b = 0x0b then some .L2048
  else if b = 0x0a then some .L1024
  else if b = 0x09 then some .L512
  else if b = 0x08 then some .L256
  else if b = 0x07 then some .L128
  else none

/-- Model of `TpduSize::pdu_ref` in `parameter.rs`. -/
def TpduSize.pdu_ref : TpduSize → Nat
  | .L8192 => 8192
  | .L4096 => 4096
  | .L2048 => 2048
  | .L1024 => 1024
  | .L512 => 512
  | .L256 => 256
  | .L128 => 128

/-- Model of `Parameter` in `parameter.rs`. -/
inductive Parameter where
  | TpduSize (s : TpduSize)
  | SrcTsap (data : List Nat)
  | DstTsap (data : List Nat)
  | Unknown
deriving DecidableEq

/-- Model of `Parameter::length` in `parameter.rs`.  The Rust expression is
`2 + data.len() as u8`, wrapping `u8` arithmetic, hence the `% 256`. -/
def Parameter.length : Parameter → Nat
  | .TpduSize _ => 3
  | .SrcTsap data => (2 + data.length % 256) % 256
  | .DstTsap data => (2 + data.length % 256) % 256
  | .Unknown => 0

/-- Model of `Parameter::decode` in `parameter.rs`.  Returns the decoded
parameter (or `none` for "no more parameters") together with the bytes left
in the caller's buffer.  The `get_u8` on an empty value slice (declared
length 0 for code `0xc0`), a panic in Rust, is modelled as an error. -/
def Parameter.decode (data : List Nat) : Except String (Option Parameter × List Nat) :=
  if data.length = 1 ∧ data[0]? = some 0xc2 then .ok (none, data)
  else if data.length = 0 then .ok (none, data)
  else
    match data[0]?, data[1]? with
    | some parameter_code, some len =>
      if data.length < len + 2 then
        .error ("data.len=" ++ toString data.length ++ " need length="
          ++ toString (len + 2) ++ ", data not enough")
      else
        let value := (data.take (len + 2)).drop 2
        let rest := data.drop (len + 2)
        if parameter_code = 0xc0 then
          match value[0]? with
          | some b =>
            match TpduSize.fromByte b with
            | some s => .ok (some (.TpduSize s), rest)
            | none => .error ("invalid tpdu size value: " ++ toString b)
          | none => .error "get_u8 out of bounds"
        else if parameter_code = 0xc1 then .ok (some (.SrcTsap value), rest)
        else if parameter_code = 0xc2 then .ok (some (.DstTsap value), rest)
        else if parameter_code = 0x02 then .ok (some .Unknown, rest)
        else .error ("unknown parameter code: " ++ toString parameter_code)
    | _, _ => .error "decode parameter header data not enough"

/-- Model of `Parameter::encode` in `parameter.rs`: the bytes appended to
`dst`.  The length byte is `data.len() as u8`, hence the `% 256`. -/
def Parameter.encode : Parameter → List Nat
  | .TpduSize s => [0xc0, 1, s.toByte]
  | .SrcTsap data => 0xc1 :: data.length % 256 :: data
  | .DstTsap data => 0xc2 :: data.length % 256 :: data
  | .Unknown => []

/-- Model of `ConnectComm` in `packet.rs`.  `destination_ref`/`source_ref`
are the `[u8; 2]` fields; `cls` is the Rust field `class` (a Lean keyword). -/
structure ConnectComm where
  destination_ref : Nat × Nat
  source_ref : Nat × Nat
  cls : Nat
  extended_formats : Bool
  no_explicit_flow_control : Bool
  parameters : List Parameter
deriving DecidableEq

/-- Model of `ConnectComm::length` in `packet.rs`: `6 + fold` in wrapping
`u8` arithmetic. -/
def ConnectComm.length (c : ConnectComm) : Nat :=
  (6 + c.parameters.foldl (fun x p => (x + p.length) % 256) 0) % 256

/-- Fuel-indexed model of the `while let Some(parameter) = Parameter::decode`
loop of `ConnectComm::decode`.  Every successful iteration consumes at least
two bytes of the buffer, so fuel `data.length + 1` never runs out; the
fuel-exhausted arm is unreachable for the initial fuel used below. -/
def decodeParametersFuel : Nat → List Nat → Except String (List Parameter)
  | 0, _ => .error "out of fuel"
  | fuel + 1, data =>
    match Parameter.decode data with
    | .error e => .error e
    | .ok (none, _) => .ok []
    | .ok (some p, rest) =>
      match decodeParametersFuel fuel rest with
      | .ok ps => .ok (p :: ps)
      | .error e => .error e

/-- The parameter loop of `ConnectComm::decode`, run with adequate fuel. -/
def ConnectComm.decodeParameters (data : List Nat) : Except String (List Parameter) :=
  decodeParametersFuel (data.length + 1) data

/-- Model of `ConnectComm::decode` in `packet.rs`.  The flag byte is split
exactly as in the source: `class = merge >> 4`,
`extended_formats = merge << 6 >> 7 > 0` (wrapping `u8` shift, hence the
`% 256`), `no_explicit_flow_control = merge & 1 > 0`. -/
def ConnectComm.decode (src : List Nat) : Except String ConnectComm :=
  if src.length < 5 then .error "data not enough"
  else
    match src with
    | d0 :: d1 :: s0 :: s1 :: merge :: rest =>
      match ConnectComm.decodeParameters rest with
      | .ok ps =>
        .ok { destination_ref := (d0, d1)
              source_ref := (s0, s1)
              cls := merge >>> 4
              extended_formats := decide (0 < ((merge <<< 6) % 256) >>> 7)
              no_explicit_flow_control := decide (0 < Nat.land merge 1)
              parameters := ps }
      | .error e => .error e
    | _ => .error "data not enough"

/-- Model of `ConnectComm::encode` in `packet.rs`: the bytes appended to
`dst`.  The flag byte is the source expression
`class << 4 & (extended_formats ? 2 : 0) & (no_explicit_flow_control ? 1 : 0)`
(a wrapping `u8` shift combined with bitwise AND). -/
def ConnectComm.encode (c : ConnectComm) : List Nat :=
  [c.destination_ref.1, c.destination_ref.2, c.source_ref.1, c.source_ref.2,
   Nat.land (Nat.land (c.cls <<< 4 % 256) (if c.extended_formats then 2 else 0))
     (if c.no_explicit_flow_control then 1 else 0)]
  ++ (c.parameters.map Parameter.encode).flatten

/-- Model of `DtData` in `packet.rs`, generic over the payload type. -/
structure DtData (F : Type) where
  tpdu_number : Nat
  last_data_unit : Bool
  payload : F
deriving DecidableEq

/-- Model of `PduType` in `packet.rs`. -/
inductive PduType (F : Type) where
  | ConnectRequest (conn : ConnectComm)
  | ConnectConfirm (conn : ConnectComm)
  | DtData (dt : DtData F)
deriving DecidableEq

/-- Model of `CoptFrame` in `packet.rs`. -/
structure CoptFrame (F : Type) where
  pdu_type : PduType F
deriving DecidableEq

/-- Model of `PduType::length` in `packet.rs`. -/
def PduType.length {F : Type} : PduType F → Nat
  | .ConnectRequest conn => conn.length
  | .ConnectConfirm conn => conn.length
  | .DtData _ => 2

/-- Model of `CoptFrame::length` in `packet.rs`. -/
def CoptFrame.length {F : Type} (fr : CoptFrame F) : Nat :=
  fr.pdu_type.length

/-- Model of an injected `tokio_util::codec::Decoder` for the payload type:
on a buffer it returns an error, or "no item yet" (`none`), or an item
together with the buffer bytes it left unconsumed. -/
abbrev InnerDecoder (F : Type) := List Nat → Except String (Option F × List Nat)

/-- Model of an injected infallible `tokio_util::codec::Encoder` for the
payload type: the bytes it appends to `dst`. -/
abbrev InnerEncoder (F : Type) := F → List Nat

/-- Model of `CoptEncoder::encode` in `encoder.rs`: the bytes appended to
`dst`.  For `DtData` the control byte is the source expression
`tpdu_number >> 1 | (last_data_unit ? 0b1000_0000 : 0)`. -/
def CoptEncoder.encode {F : Type} (E : InnerEncoder F) (item : CoptFrame F) : List Nat :=
  item.length ::
    match item.pdu_type with
    | .ConnectRequest conn => 0xe0 :: conn.encode
    | .ConnectConfirm conn => 0xd0 :: conn.encode
    | .DtData conn =>
      0xf0 ::
        Nat.lor (conn.tpdu_number >>> 1) (if conn.last_data_unit then 0b10000000 else 0) ::
        E conn.payload

/-- Model of `CoptDecoder::decode` in `decoder.rs`.  Returns the decoded
frame (or `none` for "not enough data") together with the bytes left in the
buffer.  `li` is the peeked length byte; the source takes
`length = li + 1` bytes for the frame.  For `0xf0` the inner decoder `D`
runs on the window after those `length` bytes (`src.clone().split_off(length)`),
`sub_length` is the number of bytes it consumed, and the `get_u8` on the
control byte (a panic in Rust were the window empty) is the head match. -/
def CoptDecoder.decode {F : Type} (D : InnerDecoder F) (src : List Nat) :
    Except String (Option (CoptFrame F) × List Nat) :=
  match src[0]?, src[1]? with
  | some li, some pduType =>
    if src.length < li + 1 ∨ li + 1 < 2 then .ok (none, src)
    else if pduType = 0xe0 then
      match ConnectComm.decode ((src.take (li + 1)).drop 2) with
      | .ok conn => .ok (some ⟨.ConnectRequest conn⟩, src.drop (li + 1))
      | .error e => .error e
    else if pduType = 0xd0 then
      match ConnectComm.decode ((src.take (li + 1)).drop 2) with
      | .ok conn => .ok (some ⟨.ConnectConfirm conn⟩, src.drop (li + 1))
      | .error e => .error e
    else if pduType = 0xf0 then
      match D (src.drop (li + 1)) with
      | .error e => .error e
      | .ok (none, _) => .error "decode fail"
      | .ok (some f, sub1) =>
        match (src.take (li + 1 + ((src.drop (li + 1)).length - sub1.length))).drop 2 with
        | [] => .error "get_u8 out of bounds"
        | merge :: _ =>
          .ok (some ⟨.DtData
              { tpdu_number := Nat.land merge 0b1111111
                last_data_unit := decide (0 < Nat.land merge 0b10000000)
                payload := f }⟩,
            src.drop (li + 1 + ((src.drop (li + 1)).length - sub1.length)))
    else .error ("not support pdu type: " ++ toString pduType)
  | _, _ => .ok (none, src)

/-- A trivial inner payload codec over `Unit` that reports an (empty) item
without consuming anything: the simplest resolvable inner decoder. -/
def unitSomeDecoder : InnerDecoder Unit :=
  fun b => .ok (some (), b)

/-- A trivial inner payload codec over `Unit` that always reports "no item
yet": the simplest inner decoder that needs more data. -/
def unitNoneDecoder : InnerDecoder Unit :=
  fun b => .ok (none, b)

/-- A trivial inner payload encoder over `Unit` producing no bytes. -/
def unitEncoder : InnerEncoder Unit :=
  fun _ => []

/-- A trivial resumable inner payload codec with a fixed two-byte item:
reports "no item yet" on fewer than two bytes, otherwise consumes two. -/
def pairDecoder : InnerDecoder (Nat × Nat) :=
  fun b =>
    match b with
    | x :: y :: rest => .ok (some (x, y), rest)
    | _ => .ok (none, b)

/-- The encoder matching `pairDecoder`: a two-byte payload. -/
def pairEncoder : InnerEncoder (Nat × Nat) :=
  fun p => [p.1, p.2]

/-- C1: the claimed connect round trip `decode (encode x) = x` fails, for
instance at a `ConnectComm` with `class = 1` and both flags set and no
parameters.  `ConnectComm::encode` assembles the flag byte with bitwise AND
(`class << 4 & 2-flag & 1-flag`), which is always zero, so the encoded flag
byte is `0` and decoding returns `class = 0` with both flags clear. -/
theorem c1_connect_roundtrip_loses_class_and_flags :
    ConnectComm.encode
        { destination_ref := (0, 0), source_ref := (0, 0), cls := 1,
          extended_formats := true, no_explicit_flow_control := true,
          parameters := [] } = [0, 0, 0, 0, 0] ∧
    ConnectComm.decode [0, 0, 0, 0, 0] =
      .ok { destination_ref := (0, 0), source_ref := (0, 0), cls := 0,
            extended_formats := false, no_explicit_flow_control := false,
            parameters := [] } ∧
    ({ destination_ref := (0, 0), source_ref := (0, 0), cls := 0,
       extended_formats := false, no_explicit_flow_control := false,
       parameters := [] } : ConnectComm) ≠
      { destination_ref := (0, 0), source_ref := (0, 0), cls := 1,
        extended_formats := true, no_explicit_flow_control := true,
        parameters := [] } := by
  refine ⟨rfl, rfl, by decide⟩

/-- C2: the claimed `DtData` round trip fails at `tpdu_number = 1`,
`last_data_unit = false` (trivial `Unit` payload codec).  The encoder's
control byte is `tpdu_number >> 1 | flag`, not the claimed
`tpdu_number | flag`, so the byte written is `0` and decoding (which
extracts bits 0-6 unshifted) returns `tpdu_number = 0 ≠ 1`. -/
theorem c2_dtdata_roundtrip_halves_tpdu_number :
    CoptEncoder.encode unitEncoder ⟨.DtData ⟨1, false, ()⟩⟩ = [2, 0xf0, 0] ∧
    CoptDecoder.decode unitSomeDecoder [2, 0xf0, 0] =
      .ok (some ⟨.DtData ⟨0, false, ()⟩⟩, []) ∧
    Nat.lor 1 0 = 1 := by
  refine ⟨rfl, rfl, by decide⟩

/-- C3 counterexample: the claimed input bytes beginning with length byte
`0x0C` do not decode successfully.  The decoder takes
`length byte + 1 = 13` bytes as the whole frame, cutting off the final
byte of the `SrcTsap` parameter, so the parameter loop fails with a
data-not-enough error instead of returning the claimed frame. -/
theorem c3_claimed_bytes_fail :
    CoptDecoder.decode unitSomeDecoder
        [0x0c, 0xe0, 0x00, 0x01, 0x00, 0x02, 0x00,
         0xc0, 0x01, 0x0a, 0xc1, 0x02, 0x01, 0x00] =
      .error "data.len=3 need length=4, data not enough" := by
  rfl

/-- C3 (amended): with the correct length byte `0x0D` the fourteen bytes
`0D E0 00 01 00 02 00 C0 01 0A C1 02 01 00` decode to the connect-request
with `destination_ref = [00,01]`, `source_ref = [00,02]`, `class = 0`, both
flags clear and parameters `[TpduSize 1024, SrcTsap [01,00]]`, consuming
the whole buffer, and re-encoding that frame reproduces the same bytes. -/
theorem c3_amended_connect_roundtrip :
    CoptDecoder.decode unitSomeDecoder
        [0x0d, 0xe0, 0x00, 0x01, 0x00, 0x02, 0x00,
         0xc0, 0x01, 0x0a, 0xc1, 0x02, 0x01, 0x00] =
      .ok (some ⟨.ConnectRequest
          { destination_ref := (0x00, 0x01), source_ref := (0x00, 0x02), cls := 0,
            extended_formats := false, no_explicit_flow_control := false,
            parameters := [.TpduSize .L1024, .SrcTsap [0x01, 0x00]] }⟩, []) ∧
    CoptEncoder.encode unitEncoder
        ⟨.ConnectRequest
          { destination_ref := (0x00, 0x01), source_ref := (0x00, 0x02), cls := 0,
            extended_formats := false, no_explicit_flow_control := false,
            parameters := [.TpduSize .L1024, .SrcTsap [0x01, 0x00]] }⟩ =
      [0x0d, 0xe0, 0x00, 0x01, 0x00, 0x02, 0x00,
       0xc0, 0x01, 0x0a, 0xc1, 0x02, 0x01, 0x00] := by
  refine ⟨rfl, rfl⟩

/-- C4 counterexample: the valid data-transfer frame `02 F0 00 AA BB`
(under the resumable two-byte inner payload codec) decodes successfully, yet
its strict prefix `02 F0 00 AA` makes `CoptDecoder::decode` return a fatal
error, not the claimed `Ok(None)`: once the declared `length byte + 1` bytes
are present, the inner decoder's "no item yet" becomes `Err`. -/
theorem c4_dtdata_prefix_is_fatal :
    CoptDecoder.decode pairDecoder [0x02, 0xf0, 0x00, 0xaa, 0xbb] =
      .ok (some ⟨.DtData ⟨0, false, (0xaa, 0xbb)⟩⟩, []) ∧
    CoptDecoder.decode pairDecoder [0x02, 0xf0, 0x00, 0xaa] =
      .error "decode fail" := by
  refine ⟨rfl, rfl⟩

/-- C6 counterexample: the buffer `00 55` has its first two bytes present,
its declared frame length `0x00 + 1 = 1` satisfied, and a type byte `0x55`
that is none of `0xE0/0xD0/0xF0`, yet `CoptDecoder::decode` returns
`Ok(None)` (the `length < 2` early return), not the claimed fatal error —
and keeps doing so however many bytes arrive. -/
theorem c6_zero_length_byte_never_errors :
    CoptDecoder.decode unitSomeDecoder [0x00, 0x55] = .ok (none, [0x00, 0x55]) ∧
    CoptDecoder.decode unitSomeDecoder [0x00, 0x55, 0x01, 0x02, 0x03] =
      .ok (none, [0x00, 0x55, 0x01, 0x02, 0x03]) ∧
    (0x55 : Nat) ≠ 0xe0 ∧ (0x55 : Nat) ≠ 0xd0 ∧ (0x55 : Nat) ≠ 0xf0 := by
  refine ⟨rfl, rfl, by decide, by decide, by decide⟩

/-- C7: `Parameter::decode` on a buffer holding only the single byte `0xC2`
(the destination-TSAP code with no length or value) returns `Ok(None)`,
leaving the byte in place, and consequently a whole connect body ending in
a lone `0xC2` byte (the repository's "unusual" corpus entry) decodes
successfully, the trailing `0xC2` read as end of the parameter list. -/
theorem c7_lone_dst_tsap_code_ends_list :
    Parameter.decode [0xc2] = .ok (none, [0xc2]) ∧
    ConnectComm.decode
        [0x00, 0x01, 0x00, 0x02, 0x00, 0x02, 0x01, 0x01,
         0xc0, 0x01, 0x0a, 0xc1, 0x02, 0x01, 0x00, 0xc2] =
      .ok { destination_ref := (0x00, 0x01), source_ref := (0x00, 0x02), cls := 0,
            extended_formats := false, no_explicit_flow_control := false,
            parameters := [.Unknown, .TpduSize .L1024, .SrcTsap [0x01, 0x00]] } := by
  refine ⟨rfl, rfl⟩

/-- C9: the parameter bytes `02 01 01` decode to `Parameter::Unknown`
consuming all three bytes, the reported `length()` of `Unknown` is `0`, and
encoding `Unknown` appends no bytes — the documented lossy asymmetry. -/
theorem c9_unknown_parameter_lossy :
    Parameter.decode [0x02, 0x01, 0x01] = .ok (some .Unknown, []) ∧
    Parameter.length .Unknown = 0 ∧
    Parameter.encode .Unknown = [] := by
  refine ⟨rfl, rfl, rfl⟩

/-- C4 (amended): for every frame whose length byte correctly declares the
whole frame (`frame.length = length byte + 1`, as the encoder produces for
connect-request/connect-confirm frames), decoding any strict prefix returns
`Ok(None)` and hands the prefix back byte-for-byte unmodified.  The strict
prefix is written `p` with nonempty remainder `q`. -/
theorem c4_amended_prefix_of_declared_frame_needs_more {F : Type}
    (D : InnerDecoder F) (p q : List Nat) (hq : q ≠ [])
    (hlen : (p ++ q).length = (p ++ q).headD 0 + 1) :
    CoptDecoder.decode D p = .ok (none, p) := by
  match p with
  | [] => rfl
  | [a] => rfl
  | a :: b :: t =>
    have hlt : (a :: b :: t).length < a + 1 := by
      rcases q with _ | ⟨x, xs⟩
      · exact absurd rfl hq
      · simp only [List.cons_append, List.headD_cons, List.length_cons,
          List.length_append] at hlen ⊢
        omega
    unfold CoptDecoder.decode
    simp only [List.getElem?_cons_zero, List.getElem?_cons_succ]
    rw [if_pos (Or.inl hlt)]

/-- C4 witness: the five-byte strict prefix `0D E0 00 01 00` of the
fourteen-byte connect-request frame of C3 decodes to `Ok(None)` with the
buffer returned unchanged. -/
theorem c4_amended_witness :
    ([0x02, 0x00, 0xc0, 0x01, 0x0a, 0xc1, 0x02, 0x01, 0x00] : List Nat) ≠ [] ∧
    (([0x0d, 0xe0, 0x00, 0x01, 0x00] ++
        [0x02, 0x00, 0xc0, 0x01, 0x0a, 0xc1, 0x02, 0x01, 0x00] : List Nat).length =
      (([0x0d, 0xe0, 0x00, 0x01, 0x00] ++
        [0x02, 0x00, 0xc0, 0x01, 0x0a, 0xc1, 0x02, 0x01, 0x00] : List Nat).headD 0) + 1) ∧
    CoptDecoder.decode unitSomeDecoder [0x0d, 0xe0, 0x00, 0x01, 0x00] =
      .ok (none, [0x0d, 0xe0, 0x00, 0x01, 0x00]) :=
  ⟨by decide, by decide,
    c4_amended_prefix_of_declared_frame_needs_more unitSomeDecoder
      [0x0d, 0xe0, 0x00, 0x01, 0x00]
      [0x02, 0x00, 0xc0, 0x01, 0x0a, 0xc1, 0x02, 0x01, 0x00]
      (by decide) (by decide)⟩

/-- C5: whenever the buffer reaches the `0xF0` dispatch arm (two bytes
peeked, declared length `li + 1 ≥ 2` satisfied) and the injected inner
decoder reports "no item yet" (`Ok(None)`) on the payload window after the
declared `li + 1` bytes, `CoptDecoder::decode` returns the fatal error
`decode fail`, never `Ok(None)`. -/
theorem c5_inner_none_is_fatal {F : Type} (D : InnerDecoder F)
    (src r : List Nat) (li : Nat)
    (h0 : src[0]? = some li) (h1 : src[1]? = some 0xf0)
    (hli : 2 ≤ li + 1) (hlen : li + 1 ≤ src.length)
    (hD : D (src.drop (li + 1)) = .ok (none, r)) :
    CoptDecoder.decode D src = .error "decode fail" := by
  rcases src with _ | ⟨a, _ | ⟨b, tl⟩⟩
  · simp at h0
  · simp at h1
  · simp only [List.getElem?_cons_zero, Option.some.injEq] at h0
    simp only [List.getElem?_cons_succ, List.getElem?_cons_zero, Option.some.injEq] at h1
    subst h0
    subst h1
    unfold CoptDecoder.decode
    simp only [List.getElem?_cons_zero, List.getElem?_cons_succ]
    rw [if_neg (by omega), if_neg (by decide), if_neg (by decide),
      if_pos (by trivial), hD]

/-- C5 witness: on the buffer `02 F0 00 05` with the inner decoder that
always reports "no item yet", the frame decoder returns the fatal
`decode fail` error. -/
theorem c5_witness :
    (([0x02, 0xf0, 0x00, 0x05] : List Nat)[0]? = some 0x02) ∧
    (([0x02, 0xf0, 0x00, 0x05] : List Nat)[1]? = some 0xf0) ∧
    2 ≤ 0x02 + 1 ∧ 0x02 + 1 ≤ ([0x02, 0xf0, 0x00, 0x05] : List Nat).length ∧
    unitNoneDecoder (([0x02, 0xf0, 0x00, 0x05] : List Nat).drop (0x02 + 1)) =
      .ok (none, [0x05]) ∧
    CoptDecoder.decode unitNoneDecoder [0x02, 0xf0, 0x00, 0x05] =
      .error "decode fail" :=
  ⟨rfl, rfl, by decide, by decide, rfl,
    c5_inner_none_is_fatal unitNoneDecoder [0x02, 0xf0, 0x00, 0x05] [0x05] 0x02
      rfl rfl (by decide) (by decide) rfl⟩

/-- C6 (amended): for every buffer whose first two bytes are present, whose
declared frame length `li + 1` is satisfied and at least 2 (`li ≥ 1`), and
whose type byte is none of `0xE0/0xD0/0xF0`, `CoptDecoder::decode` returns
the fatal `not support pdu type` error.  (With length byte `0`, the decoder
instead returns `Ok(None)` forever — the counterexample to the unamended
claim.) -/
theorem c6_amended_unsupported_type_is_fatal {F : Type} (D : InnerDecoder F)
    (src : List Nat) (li t : Nat)
    (h0 : src[0]? = some li) (h1 : src[1]? = some t)
    (hli : 1 ≤ li) (hlen : li + 1 ≤ src.length)
    (he : t ≠ 0xe0) (hd : t ≠ 0xd0) (hf : t ≠ 0xf0) :
    CoptDecoder.decode D src = .error ("not support pdu type: " ++ toString t) := by
  rcases src with _ | ⟨a, _ | ⟨b, tl⟩⟩
  · simp at h0
  · simp at h1
  · simp only [List.getElem?_cons_zero, Option.some.injEq] at h0
    simp only [List.getElem?_cons_succ, List.getElem?_cons_zero, Option.some.injEq] at h1
    subst h0
    subst h1
    unfold CoptDecoder.decode
    simp only [List.getElem?_cons_zero, List.getElem?_cons_succ]
    rw [if_neg (by omega), if_neg he, if_neg hd, if_neg hf]

/-- C6 witness: the buffer `01 55 00` (declared length 2, satisfied, type
byte `0x55`) makes the frame decoder fail with `not support pdu type: 85`. -/
theorem c6_amended_witness :
    (([0x01, 0x55, 0x00] : List Nat)[0]? = some 0x01) ∧
    (([0x01, 0x55, 0x00] : List Nat)[1]? = some 0x55) ∧
    1 ≤ 0x01 ∧ 0x01 + 1 ≤ ([0x01, 0x55, 0x00] : List Nat).length ∧
    (0x55 : Nat) ≠ 0xe0 ∧ (0x55 : Nat) ≠ 0xd0 ∧ (0x55 : Nat) ≠ 0xf0 ∧
    CoptDecoder.decode unitSomeDecoder [0x01, 0x55, 0x00] =
      .error ("not support pdu type: " ++ toString (0x55 : Nat)) :=
  ⟨rfl, rfl, by decide, by decide, by decide, by decide, by decide,
    c6_amended_unsupported_type_is_fatal unitSomeDecoder [0x01, 0x55, 0x00] 0x01 0x55
      rfl rfl (by decide) (by decide) (by decide) (by decide) (by decide)⟩

/-- What C8 asserts of a single value byte `v`: the three-byte TPDU-size
parameter `C0 01 v` decodes to the corresponding size (between 128 and 8192
octets) and re-encodes to the same three bytes when `v` is one of the seven
defined codes `0x07..0x0D`, and fails with the invalid-enum-value error for
every other byte. -/
abbrev TpduByteSpec (v : Nat) : Prop :=
  (7 ≤ v ∧ v ≤ 13 →
    ∃ s : TpduSize,
      Parameter.decode [0xc0, 1, v] = .ok (some (.TpduSize s), []) ∧
      Parameter.encode (.TpduSize s) = [0xc0, 1, v] ∧
      128 ≤ s.pdu_ref ∧ s.pdu_ref ≤ 8192) ∧
  (¬(7 ≤ v ∧ v ≤ 13) →
    Parameter.decode [0xc0, 1, v] = .error ("invalid tpdu size value: " ++ toString v))

/-- C8: every value byte `v` of a TPDU-size parameter satisfies
`TpduByteSpec v`: decode succeeds exactly on the seven defined size codes
`0x07..0x0D`, round-tripping through encode, and fails with the
invalid-enum-value error on all other bytes. -/
theorem c8_tpdu_size_enum_closure (v : Nat) (hv : v < 256) : TpduByteSpec v := by
  have h : ∀ w : Fin 256, TpduByteSpec w.val := by decide
  exact h ⟨v, hv⟩

/-- C8 witness: the defined code `0x0A` (1024 octets) decodes and
round-trips, and since `10` is in range the error side holds vacuously. -/
theorem c8_witness : 10 < 256 ∧ TpduByteSpec 10 :=
  ⟨by decide, c8_tpdu_size_enum_closure 10 (by decide)⟩

/-- What C10 asserts of a successful decode: the length byte `li` was
present, the declared `li + 1` bytes were buffered, and the decoder left
exactly the bytes after the frame in the buffer — `li + 1` bytes consumed
for connect-request/connect-confirm frames, and `li + 1` plus the number of
bytes the inner decoder consumed from the window after them for
data-transfer frames. -/
def ConsumedSpec {F : Type} (D : InnerDecoder F) (src rest : List Nat)
    (frame : CoptFrame F) : Prop :=
  ∃ li, src[0]? = some li ∧ li + 1 ≤ src.length ∧
    match frame.pdu_type with
    | .ConnectRequest _ => rest = src.drop (li + 1)
    | .ConnectConfirm _ => rest = src.drop (li + 1)
    | .DtData _ =>
      ∃ f sub1, D (src.drop (li + 1)) = .ok (some f, sub1) ∧
        rest = src.drop (li + 1 + ((src.drop (li + 1)).length - sub1.length))

/-- C10: whenever `CoptDecoder::decode` succeeds with a frame, it removes
exactly the decoded frame's bytes from the front of the buffer and leaves
every byte after them unchanged, as captured by `ConsumedSpec`. -/
theorem c10_decode_consumes_exactly {F : Type} (D : InnerDecoder F)
    (src rest : List Nat) (frame : CoptFrame F)
    (h : CoptDecoder.decode D src = .ok (some frame, rest)) :
    ConsumedSpec D src rest frame := by
  rcases src with _ | ⟨a, _ | ⟨b, tl⟩⟩
  · exact absurd h (by simp [CoptDecoder.decode])
  · exact absurd h (by simp [CoptDecoder.decode])
  · unfold CoptDecoder.decode at h
    simp only [List.getElem?_cons_zero, List.getElem?_cons_succ] at h
    by_cases hc : (a :: b :: tl).length < a + 1 ∨ a + 1 < 2
    · rw [if_pos hc] at h
      exact absurd h (by simp)
    · rw [if_neg hc] at h
      have hlen : a + 1 ≤ (a :: b :: tl).length := by omega
      by_cases he : b = 0xe0
      · rw [if_pos he] at h
        cases hcd : ConnectComm.decode (((a :: b :: tl).take (a + 1)).drop 2) with
        | error e => rw [hcd] at h; exact absurd h (by simp)
        | ok conn =>
          rw [hcd] at h
          simp only [Except.ok.injEq, Prod.mk.injEq, Option.some.injEq] at h
          obtain ⟨hfr, hrest⟩ := h
          subst hfr
          subst hrest
          exact ⟨a, rfl, hlen, rfl⟩
      · rw [if_neg he] at h
        by_cases hd : b = 0xd0
        · rw [if_pos hd] at h
          cases hcd : ConnectComm.decode (((a :: b :: tl).take (a + 1)).drop 2) with
          | error e => rw [hcd] at h; exact absurd h (by simp)
          | ok conn =>
            rw [hcd] at h
            simp only [Except.ok.injEq, Prod.mk.injEq, Option.some.injEq] at h
            obtain ⟨hfr, hrest⟩ := h
            subst hfr
            subst hrest
            exact ⟨a, rfl, hlen, rfl⟩
        · rw [if_neg hd] at h
          by_cases hf0 : b = 0xf0
          · rw [if_pos hf0] at h
            split at h
            · exact absurd h (by simp)
            · exact absurd h (by simp)
            · rename_i f sub1 heqD
              split at h
              · exact absurd h (by simp)
              · simp only [Except.ok.injEq, Prod.mk.injEq, Option.some.injEq] at h
                obtain ⟨hfr, hrest⟩ := h
                subst hfr
                subst hrest
                exact ⟨a, rfl, hlen, f, sub1, heqD, rfl⟩
          · rw [if_neg hf0] at h
            exact absurd h (by simp)

/-- C10 witness: decoding the data-transfer frame `02 F0 81 07 08` followed
by the extra byte `63` (with the two-byte inner payload codec) consumes
exactly `3 + 2` bytes and leaves `[63]` in the buffer. -/
theorem c10_witness :
    ConsumedSpec pairDecoder [0x02, 0xf0, 0x81, 0x07, 0x08, 0x63] [0x63]
      ⟨.DtData ⟨1, true, (0x07, 0x08)⟩⟩ :=
  c10_decode_consumes_exactly pairDecoder [0x02, 0xf0, 0x81, 0x07, 0x08, 0x63]
    [0x63] ⟨.DtData ⟨1, true, (0x07, 0x08)⟩⟩ (by rfl)

end Copt
